import Mathlib

/-!
Shallow embedding of the audio recording application: the persisted
recording catalog store, the recording and playback session state
machine of AudioContext.tsx, and the authentication session of
AuthContext.tsx.  Platform collaborators (key-value store, secure
store, capture and sound devices, filesystem) are modelled as explicit
state carried by a world record; asynchronous platform calls become
pure state transformations, and caught exceptions become appended
alert messages.
-/

namespace AudioApp

/-- Profile settings of a user, from AuthContext.tsx. -/
structure Settings where
  theme : String
  notifications : Bool
  cloudSync : Bool
deriving DecidableEq

/-- A user profile, from AuthContext.tsx. -/
structure User where
  id : String
  email : String
  name : String
  settings : Settings
deriving DecidableEq

/-- Recording metadata, from AudioContext.tsx. -/
structure Recording where
  id : String
  uri : String
  duration : Nat
  title : String
  createdAt : String
  userId : String
deriving DecidableEq

/-- The persisted blob stored under the key audioRecordings: absent,
present but not parseable JSON, or a parsed list of recordings. -/
inductive StoredBlob where
  | absent
  | malformed
  | ok (recs : List Recording)
deriving DecidableEq

/-- The data an expo capture handle yields on stop: getURI may return
null, and the status durationMillis may be missing (the source applies
a JavaScript or-with-zero default). -/
structure Capture where
  uri : Option String
  durationMillis : Option Nat
deriving DecidableEq

/-- The filter used by loadRecordings: rec.userId === user?.id.  When
no user is set the optional chain yields undefined and no recording
matches. -/
def matchesUser (uid? : Option String) (r : Recording) : Bool :=
  match uid? with
  | none => false
  | some uid => r.userId == uid

/-- The filter used by saveRecordings: rec.userId !== user?.id.  When
no user is set every stored recording counts as belonging to another
user. -/
def isOtherUser (uid? : Option String) (r : Recording) : Bool :=
  match uid? with
  | none => true
  | some uid => r.userId != uid

/-- Store-level view of loadRecordings (AudioContext.tsx, lines
65 to 77): read the blob; when absent the in-memory list is left as it
was; when malformed, JSON.parse throws, the catch fires and the list
is also left as it was; otherwise the parsed list filtered to the
current user replaces the in-memory list. -/
def loadStore (uid? : Option String) (blob : StoredBlob)
    (prev : List Recording) : List Recording :=
  match blob with
  | .absent => prev
  | .malformed => prev
  | .ok l => l.filter (matchesUser uid?)

/-- Store-level view of saveRecordings (AudioContext.tsx, lines 79 to
98): read the blob, keep the entries of other users, append the given
list, write back.  A malformed existing blob makes JSON.parse throw,
and the function rethrows a storage error. -/
def saveStore (uid? : Option String) (updated : List Recording)
    (blob : StoredBlob) : Except Unit StoredBlob :=
  match blob with
  | .absent => .ok (.ok updated)
  | .malformed => .error ()
  | .ok l => .ok (.ok (l.filter (isOtherUser uid?) ++ updated))

/-- The whole observable state of the audio subsystem: the persisted
blob, the externally stored audio payloads, the React component state
of AudioProvider, the set of open native sound handles (identified by
numbers drawn from a fresh counter), the audio mode flags, and the
alert messages surfaced to the user. -/
structure World where
  blob : StoredBlob
  files : List String
  recordings : List Recording
  user : Option User
  currentRecording : Option Capture
  isRecording : Bool
  currentSound : Option Nat
  isPlaying : Bool
  currentPlayingId : Option String
  openSounds : List Nat
  nextSound : Nat
  allowsRecordingIOS : Bool
  playsInSilentModeIOS : Bool
  alerts : List String
deriving DecidableEq

/-- loadRecordings (AudioContext.tsx, lines 65 to 77) as a world
transformation: on a malformed blob the catch fires and an alert is
shown; otherwise the in-memory list is updated as in loadStore. -/
def loadRecordings (w : World) : World :=
  match w.blob with
  | .malformed => { w with alerts := w.alerts ++ ["Failed to load recordings"] }
  | _ => { w with recordings := loadStore (w.user.map User.id) w.blob w.recordings }

/-- startRecording (AudioContext.tsx, lines 100 to 125).  The
permission grant and the device outcome are external inputs: when the
permission is denied the function alerts and returns before touching
the audio mode; otherwise it sets the capture audio mode, and either
the prepare and start calls fail (alert, no handle stored) or the
fresh capture handle is stored and the state becomes recording. -/
def startRecording (granted deviceOk : Bool) (cap : Capture) (w : World) : World :=
  if !granted then
    { w with alerts := w.alerts ++ ["Please grant microphone access to record audio."] }
  else
    let w1 := { w with allowsRecordingIOS := true, playsInSilentModeIOS := true }
    if !deviceOk then
      { w1 with alerts := w1.alerts ++ ["Failed to start recording"] }
    else
      { w1 with currentRecording := some cap, isRecording := true }

/-- stopRecording (AudioContext.tsx, lines 127 to 159).  Early return
when no capture handle or no user.  Otherwise the handle is finalized;
a null URI throws into the catch (which alerts and changes nothing
else); on success a new Recording is built from the measured data, the
in-memory list is updated, and the store write either succeeds (handle
cleared, state idle) or throws into the catch (alert, the already
performed in-memory list update stays, the handle stays).  The id and
createdAt strings are timestamp-derived external inputs. -/
def stopRecording (newId createdAt : String) (w : World) : World :=
  match w.currentRecording, w.user with
  | some cap, some u =>
    match cap.uri with
    | none => { w with alerts := w.alerts ++ ["Failed to stop recording"] }
    | some s =>
      let newRec : Recording :=
        { id := newId, uri := s, duration := cap.durationMillis.getD 0,
          title := "Recording " ++ toString (w.recordings.length + 1),
          createdAt := createdAt, userId := u.id }
      let updated := w.recordings ++ [newRec]
      match saveStore (some u.id) updated w.blob with
      | .ok b =>
        { w with recordings := updated, blob := b,
                 currentRecording := none, isRecording := false }
      | .error _ =>
        { w with recordings := updated,
                 alerts := w.alerts ++ ["Failed to stop recording"] }
  | _, _ => w

/-- playRecording (AudioContext.tsx, lines 161 to 194).  If a sound
handle is loaded it is stopped and unloaded first (the reference in
currentSound is not cleared here).  Then the recording is looked up:
a missed lookup throws into the catch (alert, nothing else changes);
on success a fresh sound handle is created, stored, and the playback
state is set to the requested id. -/
def playRecording (rid : String) (w : World) : World :=
  let osAfterStop :=
    match w.currentSound with
    | some s => w.openSounds.erase s
    | none => w.openSounds
  match w.recordings.find? (fun r => r.id == rid) with
  | none =>
    { w with openSounds := osAfterStop,
             alerts := w.alerts ++ ["Failed to play recording"] }
  | some _ =>
    { w with openSounds := osAfterStop ++ [w.nextSound],
             nextSound := w.nextSound + 1,
             currentSound := some w.nextSound,
             currentPlayingId := some rid,
             isPlaying := true }

/-- stopPlaying (AudioContext.tsx, lines 196 to 209): when a sound
handle is loaded, stop and unload it and clear the playback state;
otherwise do nothing. -/
def stopPlaying (w : World) : World :=
  match w.currentSound with
  | none => w
  | some s =>
    { w with openSounds := w.openSounds.erase s, currentSound := none,
             currentPlayingId := none, isPlaying := false }

/-- deleteRecording (AudioContext.tsx, lines 211 to 232): stop
playback first when the deleted id is the one playing; silently return
when the id is not in the in-memory list; otherwise delete the audio
payload (idempotent), remove the entry from the in-memory list, and
write the result back through the store (a storage failure alerts but
the in-memory removal stays). -/
def deleteRecording (rid : String) (w : World) : World :=
  let w1 := if w.currentPlayingId = some rid then stopPlaying w else w
  match w1.recordings.find? (fun r => r.id == rid) with
  | none => w1
  | some r0 =>
    let w2 := { w1 with files := w1.files.filter (fun f => f != r0.uri) }
    let updated := w2.recordings.filter (fun r => r.id != rid)
    match saveStore (w2.user.map User.id) updated w2.blob with
    | .ok b => { w2 with recordings := updated, blob := b }
    | .error _ =>
      { w2 with recordings := updated,
                alerts := w2.alerts ++ ["Failed to delete recording"] }

/-- updateRecordingTitle (AudioContext.tsx, lines 234 to 247): map
over the in-memory list replacing the title of every entry with the
given id, then write back through the store (a storage failure alerts
but the in-memory update stays). -/
def updateRecordingTitle (rid newTitle : String) (w : World) : World :=
  let updated := w.recordings.map
    (fun r => if r.id == rid then { r with title := newTitle } else r)
  match saveStore (w.user.map User.id) updated w.blob with
  | .ok b => { w with recordings := updated, blob := b }
  | .error _ =>
    { w with recordings := updated,
             alerts := w.alerts ++ ["Failed to update recording title"] }

/-- The observable state of the authentication subsystem
(AuthContext.tsx): the secure-store token, the persisted profile
snapshot, the in-memory user, and the last navigation target. -/
structure AuthWorld where
  userToken : Option String
  userData : Option User
  user : Option User
  route : Option String
deriving DecidableEq

/-- checkAuthState (AuthContext.tsx, lines 37 to 54): with a token and
resolvable profile data, become authenticated and navigate to the
authenticated area; with no token navigate to the login screen; with a
token but no profile data nothing changes. -/
def checkAuthState (w : AuthWorld) : AuthWorld :=
  match w.userToken with
  | some _ =>
    match w.userData with
    | some ud => { w with user := some ud, route := some "/(tabs)" }
    | none => w
  | none => { w with route := some "/login" }

/-- The settings every fabricated profile receives. -/
def defaultSettings : Settings :=
  { theme := "light", notifications := true, cloudSync := false }

/-- The deterministic profile login fabricates from the email
(AuthContext.tsx, lines 56 to 72): constant id, the email itself, the
part of the email before the at sign as name. -/
def fabricateLogin (email : String) : User :=
  { id := "user123", email := email,
    name := (email.splitOn "@").headD "", settings := defaultSettings }

/-- login (AuthContext.tsx, lines 56 to 72): always succeeds, persists
the dummy token and the fabricated profile, sets the in-memory user. -/
def login (email _password : String) (w : AuthWorld) : AuthWorld :=
  let u := fabricateLogin email
  { w with userToken := some "dummy-token", userData := some u, user := some u }

/-- logout (AuthContext.tsx, lines 92 to 97): clears the token and the
profile snapshot, clears the in-memory user, navigates to login. -/
def logout (w : AuthWorld) : AuthWorld :=
  { w with userToken := none, userData := none, user := none,
           route := some "/login" }

/-- A process restart: the in-memory state is reset while the
persisted stores survive. -/
def restart (w : AuthWorld) : AuthWorld :=
  { w with user := none, route := none }

/-- One saveForUser call at the store level; a failing save (malformed
existing blob) leaves the stored blob unchanged. -/
def applySave (blob : StoredBlob) (op : String × List Recording) : StoredBlob :=
  match saveStore (some op.1) op.2 blob with
  | .ok b => b
  | .error _ => blob

/-- A sequence of saveForUser calls at the store level, first call
first. -/
def applySaves (blob : StoredBlob) (ops : List (String × List Recording)) : StoredBlob :=
  ops.foldl applySave blob

/-- The list passed by the last save of the given user in the
sequence, if the user saved at all. -/
def lastSaveBy (uid : String) : List (String × List Recording) → Option (List Recording)
  | [] => none
  | op :: rest =>
    match lastSaveBy uid rest with
    | some l => some l
    | none => if op.1 = uid then some op.2 else none

/-- The blob contents after a sequence of saves applied to parsed
contents. -/
def entriesAfter (e : List Recording) : List (String × List Recording) → List Recording
  | [] => e
  | op :: rest => entriesAfter (e.filter (isOtherUser (some op.1)) ++ op.2) rest

/-- A recording kept by the other-user filter never passes the
current-user filter. -/
theorem matchesUser_eq_false_of_other (uid? : Option String) (r : Recording)
    (h : isOtherUser uid? r = true) : matchesUser uid? r = false := by
  cases uid? with
  | none => rfl
  | some uid =>
    simp only [isOtherUser, bne_iff_ne] at h
    simp [matchesUser, h]

/-- Filtering to the current user after filtering to the other users
yields nothing. -/
theorem filter_matches_of_other (uid? : Option String) (l : List Recording) :
    (l.filter (isOtherUser uid?)).filter (matchesUser uid?) = [] := by
  rw [List.filter_eq_nil_iff]
  intro r hr
  have h := (List.mem_filter.mp hr).2
  simp [matchesUser_eq_false_of_other uid? r h]

/-- Filtering a list that belongs entirely to user u to user uid keeps
everything or nothing. -/
theorem filter_matches_of_hom (l : List Recording) (u uid : String)
    (h : ∀ r ∈ l, r.userId = u) :
    l.filter (matchesUser (some uid)) = if u = uid then l else [] := by
  by_cases hc : u = uid
  · subst hc
    rw [if_pos rfl, List.filter_eq_self]
    intro r hr
    simp [matchesUser, beq_iff_eq, h r hr]
  · simp only [if_neg hc]
    rw [List.filter_eq_nil_iff]
    intro r hr
    simp [matchesUser, beq_iff_eq, h r hr, hc]

/-- Removing the entries of a different user u first does not change
the view of user uid. -/
theorem filter_other_then_matches (l : List Recording) (u uid : String)
    (hne : u ≠ uid) :
    (l.filter (isOtherUser (some u))).filter (matchesUser (some uid)) =
      l.filter (matchesUser (some uid)) := by
  rw [List.filter_filter]
  apply List.filter_congr
  intro r _
  by_cases h : r.userId = uid
  · have hother : isOtherUser (some u) r = true := by
      simp only [isOtherUser, bne_iff_ne, h]
      exact fun hh => hne hh.symm
    simp [matchesUser, beq_iff_eq, h, hother]
  · simp [matchesUser, beq_iff_eq, h]

/-- The view of user uid after a sequence of saves is the list of the
last save by uid, or the initial view if uid never saved. -/
theorem entriesAfter_filter (ops : List (String × List Recording))
    (e : List Recording) (uid : String)
    (hhom : ∀ p ∈ ops, ∀ r ∈ p.2, r.userId = p.1) :
    (entriesAfter e ops).filter (matchesUser (some uid)) =
      match lastSaveBy uid ops with
      | some l => l
      | none => e.filter (matchesUser (some uid)) := by
  induction ops generalizing e with
  | nil => rfl
  | cons op rest ih =>
    have hop : ∀ r ∈ op.2, r.userId = op.1 := hhom op (by simp)
    have hrest : ∀ p ∈ rest, ∀ r ∈ p.2, r.userId = p.1 :=
      fun p hp => hhom p (by simp [hp])
    rw [entriesAfter, ih _ hrest, lastSaveBy]
    cases hl : lastSaveBy uid rest with
    | some l2 => simp
    | none =>
      simp only
      rw [List.filter_append]
      by_cases hc : op.1 = uid
      · subst hc
        rw [filter_matches_of_other, filter_matches_of_hom op.2 op.1 op.1 hop]
        simp
      · rw [filter_other_then_matches e op.1 uid hc,
          filter_matches_of_hom op.2 op.1 uid hop]
        simp [hc]

/-- A sequence of saves applied to a parseable blob yields a parseable
blob holding entriesAfter. -/
theorem applySaves_ok (ops : List (String × List Recording)) (e : List Recording) :
    applySaves (StoredBlob.ok e) ops = StoredBlob.ok (entriesAfter e ops) := by
  induction ops generalizing e with
  | nil => rfl
  | cons op rest ih =>
    show applySaves (applySave (StoredBlob.ok e) op) rest = _
    rw [show applySave (StoredBlob.ok e) op =
        StoredBlob.ok (e.filter (isOtherUser (some op.1)) ++ op.2) from rfl]
    rw [ih]
    rfl

/-- A user that never saves has no last save. -/
theorem lastSaveBy_eq_none (uid : String) (ops : List (String × List Recording))
    (h : ∀ p ∈ ops, p.1 ≠ uid) : lastSaveBy uid ops = none := by
  induction ops with
  | nil => rfl
  | cons op rest ih =>
    rw [lastSaveBy, ih (fun p hp => h p (by simp [hp]))]
    simp [h op (by simp)]

/-- Claim C1: for two distinct users and any interleaved sequence of
saveForUser calls (each saved list belonging to the saving user), a
subsequent loadForUser by either user returns exactly the list that
user last saved, and the view of any uninvolved user is untouched:
saveForUser reads the global blob, replaces only the entries of the
calling user, and preserves all other entries. -/
theorem saveForUser_roundTrip_isolation
    (u1 u2 : String) (ops : List (String × List Recording))
    (e0 prev l1 : List Recording)
    (_hne : u1 ≠ u2)
    (husers : ∀ p ∈ ops, p.1 = u1 ∨ p.1 = u2)
    (hhom : ∀ p ∈ ops, ∀ r ∈ p.2, r.userId = p.1)
    (hlast : lastSaveBy u1 ops = some l1) :
    loadStore (some u1) (applySaves (StoredBlob.ok e0) ops) prev = l1 ∧
    ∀ u3, u3 ≠ u1 → u3 ≠ u2 →
      loadStore (some u3) (applySaves (StoredBlob.ok e0) ops) prev =
        e0.filter (matchesUser (some u3)) := by
  rw [applySaves_ok]
  constructor
  · show (entriesAfter e0 ops).filter (matchesUser (some u1)) = l1
    rw [entriesAfter_filter ops e0 u1 hhom, hlast]
  · intro u3 h31 h32
    show (entriesAfter e0 ops).filter (matchesUser (some u3)) = _
    rw [entriesAfter_filter ops e0 u3 hhom,
      lastSaveBy_eq_none u3 ops (fun p hp => by
        rcases husers p hp with h | h
        · rw [h]; exact fun hh => h31 hh.symm
        · rw [h]; exact fun hh => h32 hh.symm)]

/-- Two recordings of user alice and one of user bob, used as concrete
witness data. -/
def recA1 : Recording :=
  { id := "a1", uri := "file:a1", duration := 1000, title := "Recording 1",
    createdAt := "t1", userId := "alice" }

def recA2 : Recording :=
  { id := "a2", uri := "file:a2", duration := 2000, title := "Recording 2",
    createdAt := "t2", userId := "alice" }

def recB1 : Recording :=
  { id := "b1", uri := "file:b1", duration := 500, title := "Recording 1",
    createdAt := "t3", userId := "bob" }

/-- An interleaved save sequence: alice, then bob, then alice again. -/
def opsDemo : List (String × List Recording) :=
  [("alice", [recA1]), ("bob", [recB1]), ("alice", [recA1, recA2])]

theorem saveForUser_roundTrip_isolation_witness :
    ("alice" : String) ≠ "bob" ∧
    loadStore (some "alice") (applySaves (StoredBlob.ok []) opsDemo) [] =
      [recA1, recA2] := by
  refine ⟨by decide, ?_⟩
  exact (saveForUser_roundTrip_isolation "alice" "bob" opsDemo [] [] [recA1, recA2]
    (by decide) (by decide) (by decide) rfl).1

/-- The view of the current user right after a successful saveForUser
is the saved list filtered to the current user. -/
theorem loadStore_saveStore (uid? : Option String) (updated : List Recording)
    (b b2 : StoredBlob) (prev : List Recording)
    (h : saveStore uid? updated b = Except.ok b2) :
    loadStore uid? b2 prev = updated.filter (matchesUser uid?) := by
  cases b with
  | malformed => exact absurd h (by simp [saveStore])
  | absent =>
    simp only [saveStore, Except.ok.injEq] at h
    subst h
    rfl
  | ok l =>
    simp only [saveStore, Except.ok.injEq] at h
    subst h
    show (l.filter (isOtherUser uid?) ++ updated).filter (matchesUser uid?) = _
    rw [List.filter_append, filter_matches_of_other]
    simp

/-- The profile the login stub fabricates for a\x40x.com. -/
def demoUser : User :=
  { id := "user123", email := "a@x.com", name := "a", settings := defaultSettings }

/-- A capture handle that measured 1500 milliseconds. -/
def demoCap : Capture := { uri := some "file:demo", durationMillis := some 1500 }

/-- A capture handle whose getURI returns null. -/
def capNoUri : Capture := { uri := none, durationMillis := none }

/-- The idle world: authenticated user, empty parsed blob, nothing
recording or playing. -/
def wIdle : World :=
  { blob := StoredBlob.ok [], files := [], recordings := [],
    user := some demoUser, currentRecording := none, isRecording := false,
    currentSound := none, isPlaying := false, currentPlayingId := none,
    openSounds := [], nextSound := 0, allowsRecordingIOS := false,
    playsInSilentModeIOS := false, alerts := [] }

/-- Claim C5: with no active capture handle stopRecording is a no-op:
the recording session state, the catalog and the persisted blob are
all unchanged. -/
theorem stopRecording_noop_without_capture (w : World) (newId createdAt : String)
    (h : w.currentRecording = none) : stopRecording newId createdAt w = w := by
  cases hu : w.user <;> simp [stopRecording, h, hu]

theorem stopRecording_noop_without_capture_witness :
    stopRecording "99" "t99" wIdle = wIdle :=
  stopRecording_noop_without_capture wIdle "99" "t99" rfl

/-- A world whose persisted blob does not parse. -/
def wMalformed : World := { wIdle with blob := StoredBlob.malformed }

/-- Counterexample to claim C6 as stated: with a malformed blob the
load does not yield an empty sequence in every state.  The state is
reached through the operations themselves: recording a clip while the
blob is malformed appends it to the in-memory list (the save throws
after setRecordings already ran), and the next loadRecordings hits the
parse catch and keeps that non-empty list instead of treating the
catalog as empty. -/
theorem loadRecordings_malformed_keeps_list :
    (loadRecordings (stopRecording "100" "t100"
        (startRecording true true demoCap wMalformed))).blob =
      StoredBlob.malformed ∧
    (loadRecordings (stopRecording "100" "t100"
        (startRecording true true demoCap wMalformed))).recordings =
      [{ id := "100", uri := "file:demo", duration := 1500,
         title := "Recording 1", createdAt := "t100", userId := "user123" }] ∧
    (loadRecordings (stopRecording "100" "t100"
        (startRecording true true demoCap wMalformed))).recordings ≠ [] := by
  decide

/-- Claim C6 (amended): loadRecordings returns the persisted
recordings filtered to the current user when the blob parses; when the
blob is absent or malformed it keeps the in-memory catalog as it was
(so the catalog is treated as empty at mount, where that list is
empty) and never crashes or propagates the failure: the malformed
parse is caught and surfaced as a non-fatal alert. -/
theorem loadRecordings_failsoft_keeps_prev (w : World) (u : User)
    (hu : w.user = some u) :
    (loadRecordings w).recordings =
      (match w.blob with
       | StoredBlob.ok l => l.filter (matchesUser (some u.id))
       | _ => w.recordings) ∧
    (w.blob = StoredBlob.malformed →
      (loadRecordings w).alerts = w.alerts ++ ["Failed to load recordings"]) := by
  cases hb : w.blob <;> simp [loadRecordings, hb, loadStore, hu]

theorem loadRecordings_failsoft_keeps_prev_witness :
    (loadRecordings wMalformed).recordings = [] ∧
    (loadRecordings wMalformed).alerts = ["Failed to load recordings"] := by
  have h := loadRecordings_failsoft_keeps_prev wMalformed demoUser rfl
  exact ⟨h.1, h.2 rfl⟩

/-- Claim C9: login always succeeds, fabricates the deterministic
profile from the email and persists the token and the profile; after
logout clears the persisted token and profile, probing the auth state
at the next startup leaves the session unauthenticated and navigates
to the login screen. -/
theorem login_logout_restart_unauthenticated (email password : String) (w : AuthWorld) :
    (login email password w).user = some (fabricateLogin email) ∧
    (login email password w).userToken = some "dummy-token" ∧
    (login email password w).userData = some (fabricateLogin email) ∧
    (checkAuthState (restart (logout (login email password w)))).user = none ∧
    (checkAuthState (restart (logout (login email password w)))).route = some "/login" :=
  ⟨rfl, rfl, rfl, rfl, rfl⟩

/-- Claim C10: deleting an id absent from the catalog while it is not
the currently playing id is a silent no-op: no alert, no file
deletion, in-memory list and blob unchanged. -/
theorem deleteRecording_absent_noop (w : World) (rid : String)
    (habs : ∀ r ∈ w.recordings, r.id ≠ rid)
    (hplay : w.currentPlayingId ≠ some rid) :
    deleteRecording rid w = w := by
  have hfind : w.recordings.find? (fun r => r.id == rid) = none := by
    rw [List.find?_eq_none]
    intro r hr
    simp [beq_iff_eq, habs r hr]
  simp [deleteRecording, hplay, hfind]

theorem deleteRecording_absent_noop_witness :
    deleteRecording "zzz" wIdle = wIdle :=
  deleteRecording_absent_noop wIdle "zzz" (by simp [wIdle]) (by simp [wIdle])

/-- Claim C2 (amended: the audio mode is not restored): with an active
capture handle, an authenticated user, a capture URI and a readable
blob, stopRecording appends exactly one new Recording carrying the
current user id, the measured duration and the default title Recording
N with N the previous catalog count plus one, persists the updated
list through the store, and returns the session to idle. -/
theorem stopRecording_success (w : World) (cap : Capture) (u : User)
    (s newId createdAt : String)
    (hc : w.currentRecording = some cap) (hu : w.user = some u)
    (hs : cap.uri = some s) (hb : w.blob ≠ StoredBlob.malformed) :
    (stopRecording newId createdAt w).recordings =
      w.recordings ++
        [{ id := newId, uri := s, duration := cap.durationMillis.getD 0,
           title := "Recording " ++ toString (w.recordings.length + 1),
           createdAt := createdAt, userId := u.id }] ∧
    (stopRecording newId createdAt w).currentRecording = none ∧
    (stopRecording newId createdAt w).isRecording = false ∧
    saveStore (some u.id)
        (w.recordings ++
          [{ id := newId, uri := s, duration := cap.durationMillis.getD 0,
             title := "Recording " ++ toString (w.recordings.length + 1),
             createdAt := createdAt, userId := u.id }]) w.blob =
      Except.ok (stopRecording newId createdAt w).blob := by
  cases hblob : w.blob with
  | malformed => exact absurd hblob hb
  | absent => simp [stopRecording, hc, hu, hs, saveStore, hblob]
  | ok l => simp [stopRecording, hc, hu, hs, saveStore, hblob]

/-- The idle world right after a capture was started. -/
def wCapturing : World :=
  { wIdle with currentRecording := some demoCap, isRecording := true,
               allowsRecordingIOS := true, playsInSilentModeIOS := true }

theorem stopRecording_success_witness :
    (stopRecording "100" "t100" wCapturing).recordings =
      [{ id := "100", uri := "file:demo", duration := 1500,
         title := "Recording 1", createdAt := "t100", userId := "user123" }] ∧
    (stopRecording "100" "t100" wCapturing).isRecording = false := by
  have h := stopRecording_success wCapturing demoCap demoUser "file:demo" "100" "t100"
    rfl rfl rfl (by decide)
  refine ⟨?_, h.2.2.1⟩
  rw [h.1]
  rfl

/-- Counterexample to claim C2 as stated: a successful start and stop
pair leaves the capture audio mode flag set, because stopRecording
performs no audio mode call at all; the stop itself completes (session
idle, handle cleared) with the mode still configured for capture. -/
theorem stopRecording_no_audioMode_restore :
    wIdle.allowsRecordingIOS = false ∧
    (startRecording true true demoCap wIdle).allowsRecordingIOS = true ∧
    (stopRecording "100" "t100" (startRecording true true demoCap wIdle)).isRecording = false ∧
    (stopRecording "100" "t100" (startRecording true true demoCap wIdle)).currentRecording = none ∧
    (stopRecording "100" "t100" (startRecording true true demoCap wIdle)).allowsRecordingIOS = true := by
  decide

/-- Claim C3: starting from a state whose open native sound handles
are exactly the tracked current sound (none, or one handle below the
fresh counter), playRecording leaves at most one open sound handle,
the previously playing handle is stopped and released, and on a
successful lookup the playback state is Playing exactly the requested
id on the single freshly opened handle. -/
theorem playRecording_at_most_one_handle (w : World) (rid : String)
    (hinv : (w.currentSound = none ∧ w.openSounds = []) ∨
      (∃ s, w.currentSound = some s ∧ w.openSounds = [s] ∧ s < w.nextSound)) :
    (playRecording rid w).openSounds.length ≤ 1 ∧
    ((w.recordings.find? (fun r => r.id == rid)).isSome →
      (playRecording rid w).currentPlayingId = some rid ∧
      (playRecording rid w).isPlaying = true ∧
      (playRecording rid w).currentSound = some w.nextSound ∧
      (playRecording rid w).openSounds = [w.nextSound]) ∧
    (∀ s, w.currentSound = some s → s ∉ (playRecording rid w).openSounds) := by
  rcases hinv with ⟨h1, h2⟩ | ⟨s, h1, h2, h3⟩ <;>
    cases hf : w.recordings.find? (fun r => r.id == rid) <;>
      simp [playRecording, h1, h2, hf]
  omega

/-- A world playing recording a1 on sound handle 5 with a two-entry
catalog. -/
def wPlaying : World :=
  { wIdle with recordings := [recA1, recA2], currentSound := some 5,
               isPlaying := true, currentPlayingId := some "a1",
               openSounds := [5], nextSound := 6 }

theorem playRecording_at_most_one_handle_witness :
    (playRecording "a2" wPlaying).openSounds.length ≤ 1 ∧
    (playRecording "a2" wPlaying).currentPlayingId = some "a2" ∧
    5 ∉ (playRecording "a2" wPlaying).openSounds := by
  have h := playRecording_at_most_one_handle wPlaying "a2"
    (Or.inr ⟨5, rfl, rfl, by decide⟩)
  exact ⟨h.1, (h.2.1 (by decide)).1, h.2.2 5 rfl⟩

/-- Claim C4: deleting the currently playing recording stops playback
and releases its sound handle, removes the external audio payload
idempotently, and removes the catalog entry: afterwards neither the
in-memory catalog nor the persisted view of the current user contains
the id. -/
theorem deleteRecording_playing (w : World) (rid : String) (r0 : Recording) (s : Nat)
    (hplay : w.currentPlayingId = some rid)
    (hfind : w.recordings.find? (fun r => r.id == rid) = some r0)
    (hblob : w.blob ≠ StoredBlob.malformed)
    (hsound : w.currentSound = some s)
    (hopen : w.openSounds = [s]) :
    (deleteRecording rid w).isPlaying = false ∧
    (deleteRecording rid w).currentSound = none ∧
    (deleteRecording rid w).currentPlayingId = none ∧
    (deleteRecording rid w).openSounds = [] ∧
    (deleteRecording rid w).files = w.files.filter (fun f => f != r0.uri) ∧
    (∀ r ∈ (deleteRecording rid w).recordings, r.id ≠ rid) ∧
    (∀ r ∈ loadStore (w.user.map User.id) (deleteRecording rid w).blob [],
      r.id ≠ rid) := by
  cases hb2 : w.blob with
  | malformed => exact absurd hb2 hblob
  | absent =>
    simp [deleteRecording, hplay, stopPlaying, hsound, hopen, hfind, saveStore,
      hb2, loadStore, List.mem_filter, bne_iff_ne]
  | ok l =>
    simp [deleteRecording, hplay, stopPlaying, hsound, hopen, hfind, saveStore,
      hb2, loadStore, List.mem_filter, bne_iff_ne]
    intro r hr
    rcases hr with ⟨_, hm, ho⟩ | ⟨_, _, hne2⟩
    · rw [matchesUser_eq_false_of_other _ r ho] at hm
      exact absurd hm (by simp)
    · exact hne2

/-- A world playing recording a1 on sound handle 3, with the audio
payloads of both catalog entries present on the filesystem. -/
def wPlayingDel : World :=
  { wIdle with recordings := [recA1, recA2], files := ["file:a1", "file:a2"],
               currentSound := some 3, isPlaying := true,
               currentPlayingId := some "a1", openSounds := [3], nextSound := 4 }

theorem deleteRecording_playing_witness :
    (deleteRecording "a1" wPlayingDel).isPlaying = false ∧
    (deleteRecording "a1" wPlayingDel).files = ["file:a2"] ∧
    (∀ r ∈ (deleteRecording "a1" wPlayingDel).recordings, r.id ≠ "a1") := by
  have h := deleteRecording_playing wPlayingDel "a1" recA1 3 rfl rfl (by decide) rfl rfl
  refine ⟨h.1, ?_, h.2.2.2.2.2.1⟩
  rw [h.2.2.2.2.1]
  rfl

/-- A world with an active capture whose handle will yield no URI, so
that stopping it fails inside the try block. -/
def wErr : World :=
  { wIdle with currentRecording := some capNoUri, isRecording := true }

/-- Counterexample to claim C7 as stated: a stopRecording failure (the
capture handle yields no URI) is caught and alerted, but the capture
handle stays referenced and the session stays Capturing instead of
rolling back to Idle. -/
theorem stopRecording_failure_keeps_capture :
    (stopRecording "9" "t9" wErr).alerts = ["Failed to stop recording"] ∧
    (stopRecording "9" "t9" wErr).isRecording = true ∧
    (stopRecording "9" "t9" wErr).currentRecording = some capNoUri := by
  decide

/-- Claim C7 (amended): every modelled failure of startRecording,
stopRecording and playRecording is caught at the operation boundary
and surfaced as a non-fatal alert; a failed startRecording leaves the
recording session state unchanged, and a missed playback lookup with
no loaded sound leaves the world unchanged apart from the alert; but
failed stopRecording and playRecording calls do not roll back to Idle:
a stopRecording failure (null capture URI, or a storage write failure
on a malformed blob) retains the capture handle and the Capturing
flag, and a missed playback lookup while a sound is loaded unloads the
prior native handle yet retains the stale sound reference, the
Playing flag and the tracked id. -/
theorem operation_failures_caught (w : World) (cap : Capture) (u : User)
    (rid newId createdAt s0 : String) (sn : Nat) :
    (startRecording false true cap w =
      { w with alerts := w.alerts ++ ["Please grant microphone access to record audio."] }) ∧
    ((startRecording true false cap w).currentRecording = w.currentRecording ∧
      (startRecording true false cap w).isRecording = w.isRecording ∧
      (startRecording true false cap w).alerts = w.alerts ++ ["Failed to start recording"]) ∧
    (w.currentRecording = some cap → w.user = some u → cap.uri = none →
      (stopRecording newId createdAt w).alerts = w.alerts ++ ["Failed to stop recording"] ∧
      (stopRecording newId createdAt w).currentRecording = some cap ∧
      (stopRecording newId createdAt w).isRecording = w.isRecording) ∧
    (w.currentRecording = some cap → w.user = some u → cap.uri = some s0 →
      w.blob = StoredBlob.malformed →
      (stopRecording newId createdAt w).alerts = w.alerts ++ ["Failed to stop recording"] ∧
      (stopRecording newId createdAt w).currentRecording = some cap ∧
      (stopRecording newId createdAt w).isRecording = w.isRecording ∧
      (stopRecording newId createdAt w).blob = w.blob) ∧
    (w.recordings.find? (fun r => r.id == rid) = none → w.currentSound = none →
      playRecording rid w =
        { w with alerts := w.alerts ++ ["Failed to play recording"] }) ∧
    (w.recordings.find? (fun r => r.id == rid) = none → w.currentSound = some sn →
      (playRecording rid w).alerts = w.alerts ++ ["Failed to play recording"] ∧
      (playRecording rid w).currentSound = some sn ∧
      (playRecording rid w).isPlaying = w.isPlaying ∧
      (playRecording rid w).currentPlayingId = w.currentPlayingId ∧
      (playRecording rid w).openSounds = w.openSounds.erase sn) := by
  refine ⟨rfl, ⟨rfl, rfl, rfl⟩, ?_, ?_, ?_, ?_⟩
  · intro h1 h2 h3
    refine ⟨?_, ?_, ?_⟩ <;> simp [stopRecording, h1, h2, h3]
  · intro h1 h2 h3 h4
    refine ⟨?_, ?_, ?_, ?_⟩ <;> simp [stopRecording, h1, h2, h3, saveStore, h4]
  · intro hf hs
    simp [playRecording, hf, hs]
  · intro hf hsn
    refine ⟨?_, ?_, ?_, ?_, ?_⟩ <;> simp [playRecording, hf, hsn]

/-- A world in Capturing and Playing at once, with a usable capture
handle but a malformed persisted blob, so that the store write inside
stopRecording throws, and with sound handle 7 loaded while the looked
up playback id will miss. -/
def wErrSave : World :=
  { wIdle with blob := StoredBlob.malformed, currentRecording := some demoCap,
               isRecording := true, currentSound := some 7, openSounds := [7],
               nextSound := 8, isPlaying := true, currentPlayingId := some "a1" }

theorem operation_failures_caught_witness :
    (startRecording false true capNoUri wErr).alerts =
      ["Please grant microphone access to record audio."] ∧
    (stopRecording "9b" "t9b" wErr).alerts = ["Failed to stop recording"] ∧
    (stopRecording "9b" "t9b" wErr).isRecording = true ∧
    (stopRecording "9c" "t9c" wErrSave).alerts = ["Failed to stop recording"] ∧
    (stopRecording "9c" "t9c" wErrSave).currentRecording = some demoCap ∧
    (stopRecording "9c" "t9c" wErrSave).isRecording = true ∧
    playRecording "zzz" wErr = { wErr with alerts := ["Failed to play recording"] } ∧
    (playRecording "zzz" wErrSave).currentSound = some 7 ∧
    (playRecording "zzz" wErrSave).isPlaying = true ∧
    (playRecording "zzz" wErrSave).currentPlayingId = some "a1" := by
  have h1 := operation_failures_caught wErr capNoUri demoUser "zzz" "9b" "t9b" "x" 0
  have h2 := operation_failures_caught wErrSave demoCap demoUser "zzz" "9c" "t9c"
    "file:demo" 7
  exact ⟨by rw [h1.1]; rfl, (h1.2.2.1 rfl rfl rfl).1, (h1.2.2.1 rfl rfl rfl).2.2,
    (h2.2.2.2.1 rfl rfl rfl rfl).1, (h2.2.2.2.1 rfl rfl rfl rfl).2.1,
    (h2.2.2.2.1 rfl rfl rfl rfl).2.2.1,
    h1.2.2.2.2.1 rfl rfl,
    (h2.2.2.2.2.2 rfl rfl).2.1, (h2.2.2.2.2.2 rfl rfl).2.2.1,
    (h2.2.2.2.2.2 rfl rfl).2.2.2.1⟩

/-- Claim C8: renaming changes only the title of the targeted
recording: the rewritten entry keeps its uri and createdAt, the length
of the catalog is kept, every entry with a different id is kept
unchanged, and a subsequent load of the persisted blob returns exactly
the updated catalog, containing the renamed entry. -/
theorem updateRecordingTitle_only_title (w : World) (u : User)
    (rid newTitle : String) (r0 : Recording)
    (hu : w.user = some u)
    (hr0 : r0 ∈ w.recordings) (hid : r0.id = rid)
    (hhom : ∀ r ∈ w.recordings, r.userId = u.id)
    (hblob : w.blob ≠ StoredBlob.malformed) :
    (updateRecordingTitle rid newTitle w).recordings.length = w.recordings.length ∧
    (∀ r ∈ w.recordings, r.id ≠ rid →
      r ∈ (updateRecordingTitle rid newTitle w).recordings) ∧
    { r0 with title := newTitle } ∈ (updateRecordingTitle rid newTitle w).recordings ∧
    ({ r0 with title := newTitle }).uri = r0.uri ∧
    ({ r0 with title := newTitle }).createdAt = r0.createdAt ∧
    loadStore (some u.id) (updateRecordingTitle rid newTitle w).blob [] =
      (updateRecordingTitle rid newTitle w).recordings ∧
    { r0 with title := newTitle } ∈
      loadStore (some u.id) (updateRecordingTitle rid newTitle w).blob [] := by
  have hrecs : (updateRecordingTitle rid newTitle w).recordings =
      w.recordings.map
        (fun r => if r.id == rid then { r with title := newTitle } else r) := by
    rw [updateRecordingTitle]
    cases saveStore (w.user.map User.id)
      (w.recordings.map
        (fun r => if r.id == rid then { r with title := newTitle } else r))
      w.blob <;> rfl
  have hsave : saveStore (some u.id)
      (w.recordings.map
        (fun r => if r.id == rid then { r with title := newTitle } else r))
      w.blob = Except.ok (updateRecordingTitle rid newTitle w).blob := by
    cases hb2 : w.blob with
    | malformed => exact absurd hb2 hblob
    | absent => simp [updateRecordingTitle, saveStore, hb2, hu]
    | ok l => simp [updateRecordingTitle, saveStore, hb2, hu]
  have hhom2 : ∀ r ∈ w.recordings.map
      (fun r => if r.id == rid then { r with title := newTitle } else r),
      r.userId = u.id := by
    intro r hr
    rcases List.mem_map.mp hr with ⟨r1, hr1, rfl⟩
    by_cases h : r1.id = rid <;> simp [h, hhom r1 hr1]
  have hload := loadStore_saveStore (some u.id) _ w.blob _ [] hsave
  have hfilter : (w.recordings.map
      (fun r => if r.id == rid then { r with title := newTitle } else r)).filter
        (matchesUser (some u.id)) =
      w.recordings.map
        (fun r => if r.id == rid then { r with title := newTitle } else r) := by
    rw [List.filter_eq_self]
    intro r hr
    simp [matchesUser, beq_iff_eq, hhom2 r hr]
  have htarget : { r0 with title := newTitle } ∈ w.recordings.map
      (fun r => if r.id == rid then { r with title := newTitle } else r) := by
    have := List.mem_map_of_mem
      (fun r => if r.id == rid then { r with title := newTitle } else r) hr0
    simpa [hid] using this
  refine ⟨by rw [hrecs, List.length_map], ?_, ?_, rfl, rfl, ?_, ?_⟩
  · intro r hr hne2
    rw [hrecs]
    have := List.mem_map_of_mem
      (fun r => if r.id == rid then { r with title := newTitle } else r) hr
    simpa [hne2] using this
  · rw [hrecs]
    exact htarget
  · rw [hload, hfilter, hrecs]
  · rw [hload, hfilter]
    exact htarget

/-- Two recordings owned by the demo user. -/
def recU1 : Recording :=
  { id := "u1", uri := "file:u1", duration := 800, title := "Recording 1",
    createdAt := "t4", userId := "user123" }

def recU2 : Recording :=
  { id := "u2", uri := "file:u2", duration := 900, title := "Recording 2",
    createdAt := "t5", userId := "user123" }

/-- The idle world with a two-entry catalog of the demo user. -/
def wLib : World := { wIdle with recordings := [recU1, recU2] }

theorem updateRecordingTitle_only_title_witness :
    { recU1 with title := "My Take" } ∈
      (updateRecordingTitle "u1" "My Take" wLib).recordings ∧
    recU2 ∈ (updateRecordingTitle "u1" "My Take" wLib).recordings ∧
    { recU1 with title := "My Take" } ∈
      loadStore (some "user123") (updateRecordingTitle "u1" "My Take" wLib).blob [] := by
  have h := updateRecordingTitle_only_title wLib demoUser "u1" "My Take" recU1
    rfl (by decide) rfl (by decide) (by decide)
  exact ⟨h.2.2.1, h.2.1 recU2 (by decide) (by decide), h.2.2.2.2.2.2⟩

end AudioApp
